import Mathlib

/-!
Shallow embedding of `openslide/deepzoom.py` (class `DeepZoomGenerator`).

Conventions of the embedding:
* Python integers are `ℤ` (or `ℕ` where the source guarantees nonnegativity,
  e.g. pixel dimensions reported by the slide reader).
* The floating-point downsample arithmetic of the source is carried in exact
  rationals `ℚ`; the spec itself describes these quantities as rational
  values for which double precision is merely an acceptable carrier.
* The Python `int()` truncation toward zero is `pyInt`; `math.ceil` on an
  exact rational is `Int.ceil`.
* Python `zip` truncates to the shorter list, as does `List.zip`.
* Out-of-range indexing (which would raise `IndexError` in Python) is
  modelled with `List.getD`; every theorem below only exercises in-range
  indices.
-/

/-- The interface of the external OpenSlide object used by `deepzoom.py`:
per-layer pixel dimensions (`layer_dimensions`), per-layer downsample
factors (`layer_downsamples`), and the best-layer query
(`get_best_layer_for_downsample`). -/
structure SourceReader where
  l_dimensions : List (Nat × Nat)
  l_downsamples : List ℚ
  best_layer : ℚ → Nat

/-- The construction-time parameters of `DeepZoomGenerator.__init__`
(deepzoom.py line 36): the wrapped reader, `tile_size` and `overlap`. -/
structure DeepZoomGenerator where
  osr : SourceReader
  tile_size : Nat
  overlap : Nat

/-- Python `int()` on an exact rational: truncation toward zero. -/
def pyInt (q : ℚ) : ℤ := if q < 0 then ⌈q⌉ else ⌊q⌋

/-- One halving step of the level-dimension recurrence:
`max(1, int(math.ceil(z / 2)))` (deepzoom.py line 62); for `z : ℕ`,
`ceil(z / 2) = (z + 1) / 2`. -/
def zhalve (z : Nat) : Nat := max 1 ((z + 1) / 2)

/-- The while loop of `__init__` (deepzoom.py lines 59-63): starting from
the full-resolution size, collect `(w, h)` and halve componentwise until
both components are `≤ 1`.  Finest size first (the source reverses at the
end). -/
def zDimsChain (w h : Nat) : List (Nat × Nat) :=
  if 1 < w ∨ 1 < h then (w, h) :: zDimsChain (zhalve w) (zhalve h)
  else [(w, h)]
termination_by max w h
decreasing_by
  simp only [zhalve]
  omega

/-- `self._l_dimensions = osr.layer_dimensions` (line 56). -/
def DeepZoomGenerator.l_dimensions (g : DeepZoomGenerator) : List (Nat × Nat) :=
  g.osr.l_dimensions

/-- `self._l0_dimensions = self._l_dimensions[0]` (line 57). -/
def DeepZoomGenerator.l0_dimensions (g : DeepZoomGenerator) : Nat × Nat :=
  g.l_dimensions.headD (0, 0)

/-- `self._z_dimensions` (lines 59-64): the reversed halving chain, so index
0 is coarsest and the last index is the full resolution. -/
def DeepZoomGenerator.z_dimensions (g : DeepZoomGenerator) : List (Nat × Nat) :=
  (zDimsChain g.l0_dimensions.1 g.l0_dimensions.2).reverse

/-- `self._levels = len(self._z_dimensions)` (line 71). -/
def DeepZoomGenerator.levels (g : DeepZoomGenerator) : Nat :=
  g.z_dimensions.length

/-- `tiles = lambda z_lim: int(math.ceil(z_lim / self._z_t_downsample))`
(line 66); for naturals, `ceil(z / ts) = (z + ts - 1) / ts` when `ts ≥ 1`. -/
def DeepZoomGenerator.tiles (g : DeepZoomGenerator) (z_lim : Nat) : Nat :=
  (z_lim + g.tile_size - 1) / g.tile_size

/-- `self._t_dimensions` (lines 67-68): per-level tile-grid sizes. -/
def DeepZoomGenerator.t_dimensions (g : DeepZoomGenerator) : List (Nat × Nat) :=
  g.z_dimensions.map (fun p => (g.tiles p.1, g.tiles p.2))

/-- `l0_z_downsamples[level] = 2 ** (self._levels - level - 1)`
(lines 74-75). -/
def DeepZoomGenerator.l0_z_downsamples (g : DeepZoomGenerator) (level : Nat) : ℚ :=
  2 ^ (g.levels - level - 1)

/-- `self._layer_from_level` (lines 78-80): the preferred slide layer per
Deep Zoom level. -/
def DeepZoomGenerator.layer_from_level (g : DeepZoomGenerator) (level : Nat) : Nat :=
  g.osr.best_layer (g.l0_z_downsamples level)

/-- `self._l0_l_downsamples = self._osr.layer_downsamples` (line 83). -/
def DeepZoomGenerator.l0_l_downsamples (g : DeepZoomGenerator) : List ℚ :=
  g.osr.l_downsamples

/-- `self._l_z_downsamples` (lines 84-87): the level-to-layer downsample. -/
def DeepZoomGenerator.l_z_downsamples (g : DeepZoomGenerator) (level : Nat) : ℚ :=
  g.l0_z_downsamples level / g.l0_l_downsamples.getD (g.layer_from_level level) 0

/-- `_z_from_t` (lines 178-179). -/
def DeepZoomGenerator.z_from_t (g : DeepZoomGenerator) (t : ℤ) : ℤ :=
  (g.tile_size : ℤ) * t

/-- `_l_from_z` (lines 175-176). -/
def DeepZoomGenerator.l_from_z (g : DeepZoomGenerator) (level : Nat) (z : ℚ) : ℚ :=
  g.l_z_downsamples level * z

/-- `_l0_from_l` (lines 172-173). -/
def DeepZoomGenerator.l0_from_l (g : DeepZoomGenerator) (layer : Nat) (l : ℚ) : ℚ :=
  g.l0_l_downsamples.getD layer 0 * l

/-- The two `ValueError`s of `_get_tile_info` (lines 137 and 140). -/
inductive DeepZoomError where
  | invalidLevel : DeepZoomError
  | invalidAddress : DeepZoomError
deriving DecidableEq

/-- The result of `_get_tile_info` (line 170): the `read_region` arguments
`(l0_location, layer, l_size)` together with the final tile size `z_size`. -/
structure TileInfo where
  l0_location : List ℤ
  layer : Nat
  l_size : List ℤ
  z_size : List ℤ
deriving DecidableEq

/-- A `(w, h)` pair viewed as the two-element sequence that Python `zip`
iterates over. -/
def pairList (p : Nat × Nat) : List ℤ := [(p.1 : ℤ), (p.2 : ℤ)]

/-- `_get_tile_info` (deepzoom.py lines 134-170), line by line:
level-range check, per-axis address check via `zip` against the tile grid
of the level, overlap flags, final tile size `z_size`, read origin
`l0_location` (rounded with `int()`), and clipped read size `l_size`. -/
def DeepZoomGenerator.get_tile_info (g : DeepZoomGenerator) (level : ℤ)
    (t_location : List ℤ) : Except DeepZoomError TileInfo :=
  if level < 0 ∨ (g.levels : ℤ) ≤ level then .error .invalidLevel
  else
    let lv : Nat := level.toNat
    let t_lims : List ℤ := pairList (g.t_dimensions.getD lv (0, 0))
    if (t_location.zip t_lims).any (fun p => decide (p.1 < 0 ∨ p.2 ≤ p.1)) then
      .error .invalidAddress
    else
      let layer := g.layer_from_level lv
      let z_overlap_tl : List ℤ :=
        t_location.map (fun t => (g.overlap : ℤ) * (if t ≠ 0 then 1 else 0))
      let z_overlap_br : List ℤ :=
        (t_location.zip t_lims).map
          (fun p => (g.overlap : ℤ) * (if p.1 ≠ p.2 - 1 then 1 else 0))
      let z_lims : List ℤ := pairList (g.z_dimensions.getD lv (0, 0))
      let z_size : List ℤ :=
        ((t_location.zip z_lims).zip (z_overlap_tl.zip z_overlap_br)).map
          (fun p => min (g.tile_size : ℤ) (p.1.2 - (g.tile_size : ℤ) * p.1.1)
            + p.2.1 + p.2.2)
      let z_location : List ℤ := t_location.map (fun t => g.z_from_t t)
      let l_location : List ℚ :=
        (z_location.zip z_overlap_tl).map
          (fun p => g.l_from_z lv (p.1 : ℚ) - (p.2 : ℚ))
      let l0_location : List ℤ :=
        l_location.map (fun l => pyInt (g.l0_from_l layer l))
      let l_lims : List ℤ := pairList (g.l_dimensions.getD layer (0, 0))
      let l_size : List ℤ :=
        ((l_location.zip (z_size.map (fun z : ℤ => (z : ℚ)))).zip l_lims).map
          (fun p => min ⌈g.l_from_z lv p.1.2⌉ (p.2 - ⌈p.1.1⌉))
      .ok ⟨l0_location, layer, l_size, z_size⟩

/-- The list of `read_region` calls `get_tile` (lines 113-122) issues for a
request: empty when `_get_tile_info` raises, otherwise the single call with
the computed arguments. -/
def DeepZoomGenerator.get_tile_reads (g : DeepZoomGenerator) (level : ℤ)
    (address : List ℤ) : List (List ℤ × Nat × List ℤ) :=
  match g.get_tile_info level address with
  | .error _ => []
  | .ok info => [(info.l0_location, info.layer, info.l_size)]

/-- An XML element as built by `get_dzi`: tag, attributes in construction
order, children. -/
structure XMLElement where
  tag : String
  attrs : List (String × String)
  children : List XMLElement

/-- `get_dzi` (deepzoom.py lines 181-193): the descriptor document, as the
element tree handed to the (external) serializer — root `Image` with
`TileSize`, `Overlap`, `Format` and the Deep Zoom namespace, and a single
`Size` child carrying the full-resolution dimensions. -/
def DeepZoomGenerator.get_dzi (g : DeepZoomGenerator) (format : String) :
    XMLElement :=
  { tag := "Image"
    attrs := [("TileSize", toString g.tile_size),
              ("Overlap", toString g.overlap),
              ("Format", format),
              ("xmlns", "http://schemas.microsoft.com/deepzoom/2008")]
    children := [{ tag := "Size"
                   attrs := [("Width", toString g.l0_dimensions.1),
                             ("Height", toString g.l0_dimensions.2)]
                   children := [] }] }

/-! Per-axis bodies of the comprehensions in `_get_tile_info`: each names
the function one list element of the corresponding comprehension computes,
so the theorems below can speak about a single axis. -/

/-- Body of the `z_overlap_tl` comprehension (lines 146-147). -/
def DeepZoomGenerator.overlap_tl (g : DeepZoomGenerator) (t : ℤ) : ℤ :=
  (g.overlap : ℤ) * (if t ≠ 0 then 1 else 0)

/-- Body of the `z_overlap_br` comprehension (lines 148-149). -/
def DeepZoomGenerator.overlap_br (g : DeepZoomGenerator) (t t_lim : ℤ) : ℤ :=
  (g.overlap : ℤ) * (if t ≠ t_lim - 1 then 1 else 0)

/-- Body of the `z_size` comprehension (lines 152-156). -/
def DeepZoomGenerator.axis_z_size (g : DeepZoomGenerator) (t z_lim t_lim : ℤ) : ℤ :=
  min (g.tile_size : ℤ) (z_lim - (g.tile_size : ℤ) * t)
    + g.overlap_tl t + g.overlap_br t t_lim

/-- Body of the `l_location` comprehension (lines 160-161). -/
def DeepZoomGenerator.axis_l_location (g : DeepZoomGenerator) (lv : Nat) (t : ℤ) : ℚ :=
  g.l_from_z lv ((g.z_from_t t : ℤ) : ℚ) - ((g.overlap_tl t : ℤ) : ℚ)

/-- Body of the `l0_location` comprehension (line 163). -/
def DeepZoomGenerator.axis_l0_location (g : DeepZoomGenerator) (lv : Nat) (t : ℤ) : ℤ :=
  pyInt (g.l0_from_l (g.layer_from_level lv) (g.axis_l_location lv t))

/-- Body of the `l_size` comprehension (lines 164-167). -/
def DeepZoomGenerator.axis_l_size (g : DeepZoomGenerator) (lv : Nat)
    (t z_lim t_lim l_lim : ℤ) : ℤ :=
  min ⌈g.l_from_z lv ((g.axis_z_size t z_lim t_lim : ℤ) : ℚ)⌉
    (l_lim - ⌈g.axis_l_location lv t⌉)

/-- A single-layer 300×300 source (the running example of the spec). -/
def srcReader300 : SourceReader := ⟨[(300, 300)], [1], fun _ => 0⟩

/-- The running example of the spec: 300×300, `tile_size = 256`, `overlap = 1`. -/
def g300 : DeepZoomGenerator := ⟨srcReader300, 256, 1⟩

/-- A single-layer 600×600 source, used where a level with a non-unit
level-to-layer downsample and more than one tile is needed. -/
def srcReader600 : SourceReader := ⟨[(600, 600)], [1], fun _ => 0⟩

/-- 600×600 generator with `tile_size = 256`, `overlap = 1`. -/
def g600 : DeepZoomGenerator := ⟨srcReader600, 256, 1⟩

/-! ### Helper lemmas -/

/-- `_get_tile_info` yields `Invalid level` exactly when the level is out of
`[0, levels)`. -/
lemma get_tile_info_invalidLevel_iff (g : DeepZoomGenerator) (level : ℤ)
    (addr : List ℤ) :
    g.get_tile_info level addr = .error .invalidLevel ↔
      level < 0 ∨ (g.levels : ℤ) ≤ level := by
  unfold DeepZoomGenerator.get_tile_info
  split
  · simp_all
  · dsimp only
    split <;> simp_all

/-- `_get_tile_info` yields `Invalid address` exactly when the level is in
range and some zipped coordinate fails its bound. -/
lemma get_tile_info_invalidAddress_iff (g : DeepZoomGenerator) (level : ℤ)
    (addr : List ℤ) :
    g.get_tile_info level addr = .error .invalidAddress ↔
      (0 ≤ level ∧ level < (g.levels : ℤ) ∧
        (addr.zip (pairList (g.t_dimensions.getD level.toNat (0, 0)))).any
          (fun p => decide (p.1 < 0 ∨ p.2 ≤ p.1)) = true) := by
  unfold DeepZoomGenerator.get_tile_info
  split
  · simp_all
    omega
  · rename_i h1
    dsimp only
    split
    · rename_i h2
      constructor
      · intro _
        exact ⟨by omega, by omega, h2⟩
      · intro _
        rfl
    · rename_i h2
      simp_all
      exact fun x y h => (h2 x y h).1

/-- Evaluation of `_get_tile_info` on a valid `(col, row)` address: the
result is `ok` and each field is the per-axis formula from the source. -/
lemma get_tile_info_ok_eval (g : DeepZoomGenerator) (level : Nat) (c r : ℤ)
    (hlevel : level < g.levels)
    (hc0 : 0 ≤ c) (hc : c < ((g.t_dimensions.getD level (0, 0)).1 : ℤ))
    (hr0 : 0 ≤ r) (hr : r < ((g.t_dimensions.getD level (0, 0)).2 : ℤ)) :
    g.get_tile_info (level : ℤ) [c, r] = .ok
      { l0_location := [g.axis_l0_location level c, g.axis_l0_location level r]
        layer := g.layer_from_level level
        l_size := [
          g.axis_l_size level c ((g.z_dimensions.getD level (0, 0)).1 : ℤ)
            ((g.t_dimensions.getD level (0, 0)).1 : ℤ)
            ((g.l_dimensions.getD (g.layer_from_level level) (0, 0)).1 : ℤ),
          g.axis_l_size level r ((g.z_dimensions.getD level (0, 0)).2 : ℤ)
            ((g.t_dimensions.getD level (0, 0)).2 : ℤ)
            ((g.l_dimensions.getD (g.layer_from_level level) (0, 0)).2 : ℤ)]
        z_size := [
          g.axis_z_size c ((g.z_dimensions.getD level (0, 0)).1 : ℤ)
            ((g.t_dimensions.getD level (0, 0)).1 : ℤ),
          g.axis_z_size r ((g.z_dimensions.getD level (0, 0)).2 : ℤ)
            ((g.t_dimensions.getD level (0, 0)).2 : ℤ)] } := by
  unfold DeepZoomGenerator.get_tile_info
  rw [if_neg (by omega)]
  dsimp only
  rw [if_neg (by
    simp only [Int.toNat_natCast, pairList, List.zip_cons_cons,
      List.zip_nil_left, List.any_cons, List.any_nil, Bool.or_false,
      Bool.or_eq_true, decide_eq_true_eq, not_or]
    push_neg
    constructor <;> constructor <;> omega)]
  simp only [Int.toNat_natCast, pairList, List.zip_cons_cons,
    List.zip_nil_left, List.map_cons, List.map_nil,
    DeepZoomGenerator.axis_l0_location, DeepZoomGenerator.axis_l_location,
    DeepZoomGenerator.axis_l_size, DeepZoomGenerator.axis_z_size,
    DeepZoomGenerator.overlap_tl, DeepZoomGenerator.overlap_br]

/-! ### Concrete evaluations for the 300×300 and 600×600 examples -/

lemma g300_z_dimensions : g300.z_dimensions =
    [(1, 1), (2, 2), (3, 3), (5, 5), (10, 10), (19, 19), (38, 38),
     (75, 75), (150, 150), (300, 300)] := by
  simp [DeepZoomGenerator.z_dimensions, DeepZoomGenerator.l0_dimensions,
    DeepZoomGenerator.l_dimensions, g300, srcReader300, zDimsChain, zhalve]

lemma g300_levels : g300.levels = 10 := by
  simp [DeepZoomGenerator.levels, g300_z_dimensions]

lemma g300_t_dimensions : g300.t_dimensions =
    [(1, 1), (1, 1), (1, 1), (1, 1), (1, 1), (1, 1), (1, 1),
     (1, 1), (1, 1), (2, 2)] := by
  simp [DeepZoomGenerator.t_dimensions, g300_z_dimensions,
    DeepZoomGenerator.tiles, show g300.tile_size = 256 from rfl]

lemma g300_layer9 : g300.layer_from_level 9 = 0 := rfl

lemma g300_lzd9 : g300.l_z_downsamples 9 = 1 := by
  simp [DeepZoomGenerator.l_z_downsamples, DeepZoomGenerator.l0_z_downsamples,
    DeepZoomGenerator.l0_l_downsamples, g300_levels, g300_layer9,
    show g300.osr.l_downsamples = [1] from rfl]

lemma g600_z_dimensions : g600.z_dimensions =
    [(1, 1), (2, 2), (3, 3), (5, 5), (10, 10), (19, 19), (38, 38),
     (75, 75), (150, 150), (300, 300), (600, 600)] := by
  simp [DeepZoomGenerator.z_dimensions, DeepZoomGenerator.l0_dimensions,
    DeepZoomGenerator.l_dimensions, g600, srcReader600, zDimsChain, zhalve]

lemma g600_levels : g600.levels = 11 := by
  simp [DeepZoomGenerator.levels, g600_z_dimensions]

lemma g600_t_dimensions : g600.t_dimensions =
    [(1, 1), (1, 1), (1, 1), (1, 1), (1, 1), (1, 1), (1, 1),
     (1, 1), (1, 1), (2, 2), (3, 3)] := by
  simp [DeepZoomGenerator.t_dimensions, g600_z_dimensions,
    DeepZoomGenerator.tiles, show g600.tile_size = 256 from rfl]

lemma g600_layer9 : g600.layer_from_level 9 = 0 := rfl

lemma g600_lzd9 : g600.l_z_downsamples 9 = 2 := by
  simp [DeepZoomGenerator.l_z_downsamples, DeepZoomGenerator.l0_z_downsamples,
    DeepZoomGenerator.l0_l_downsamples, g600_levels, g600_layer9,
    show g600.osr.l_downsamples = [1] from rfl]

lemma g300_tile_9_11 : g300.get_tile_info 9 [1, 1] =
    .ok ⟨[255, 255], 0, [45, 45], [45, 45]⟩ := by
  have h := get_tile_info_ok_eval g300 9 1 1
    (by simp [g300_levels]) (by norm_num) (by simp [g300_t_dimensions])
    (by norm_num) (by simp [g300_t_dimensions])
  rw [show (((9 : ℕ)) : ℤ) = (9 : ℤ) by norm_num] at h
  rw [h]
  norm_num [DeepZoomGenerator.axis_l0_location, DeepZoomGenerator.axis_l_location,
    DeepZoomGenerator.axis_l_size, DeepZoomGenerator.axis_z_size,
    DeepZoomGenerator.overlap_tl, DeepZoomGenerator.overlap_br,
    DeepZoomGenerator.l0_from_l, DeepZoomGenerator.l_from_z,
    DeepZoomGenerator.z_from_t, pyInt, g300_lzd9, g300_layer9,
    g300_t_dimensions, g300_z_dimensions,
    show g300.l0_l_downsamples = [1] from rfl,
    show g300.tile_size = 256 from rfl,
    show g300.overlap = 1 from rfl,
    show g300.l_dimensions = [(300, 300)] from rfl]

lemma g600_tile_9_11 : g600.get_tile_info 9 [1, 1] =
    .ok ⟨[511, 511], 0, [89, 89], [45, 45]⟩ := by
  have h := get_tile_info_ok_eval g600 9 1 1
    (by simp [g600_levels]) (by norm_num) (by simp [g600_t_dimensions])
    (by norm_num) (by simp [g600_t_dimensions])
  rw [show (((9 : ℕ)) : ℤ) = (9 : ℤ) by norm_num] at h
  rw [h]
  norm_num [DeepZoomGenerator.axis_l0_location, DeepZoomGenerator.axis_l_location,
    DeepZoomGenerator.axis_l_size, DeepZoomGenerator.axis_z_size,
    DeepZoomGenerator.overlap_tl, DeepZoomGenerator.overlap_br,
    DeepZoomGenerator.l0_from_l, DeepZoomGenerator.l_from_z,
    DeepZoomGenerator.z_from_t, pyInt, g600_lzd9, g600_layer9,
    g600_t_dimensions, g600_z_dimensions,
    show g600.l0_l_downsamples = [1] from rfl,
    show g600.tile_size = 256 from rfl,
    show g600.overlap = 1 from rfl,
    show g600.l_dimensions = [(600, 600)] from rfl]

/-! ### Structure of the level-dimension chain -/

lemma zDimsChain_cons (w h : Nat) : ∃ tl, zDimsChain w h = (w, h) :: tl := by
  unfold zDimsChain
  split
  · exact ⟨_, rfl⟩
  · exact ⟨[], rfl⟩

lemma zDimsChain_ne_nil (w h : Nat) : zDimsChain w h ≠ [] := by
  obtain ⟨tl, htl⟩ := zDimsChain_cons w h
  simp [htl]

lemma zDimsChain_getD_zero (w h : Nat) : (zDimsChain w h).getD 0 (0, 0) = (w, h) := by
  obtain ⟨tl, htl⟩ := zDimsChain_cons w h
  simp [htl]

/-- The last collected size has both components `≤ 1` (the loop only stops
there); strong induction on `max w h`. -/
lemma zDimsChain_getLast_aux : ∀ m w h, max w h ≤ m →
    ∃ p : Nat × Nat, (zDimsChain w h).getLast? = some p ∧ p.1 ≤ 1 ∧ p.2 ≤ 1 := by
  intro m
  induction m with
  | zero =>
    intro w h hm
    have hw : w = 0 := by omega
    have hh : h = 0 := by omega
    subst hw
    subst hh
    exact ⟨(0, 0), by simp [zDimsChain], by omega, by omega⟩
  | succ m ih =>
    intro w h hm
    by_cases hcond : 1 < w ∨ 1 < h
    · rw [zDimsChain.eq_def, if_pos hcond]
      have hmax : max (zhalve w) (zhalve h) ≤ m := by
        simp only [zhalve]
        omega
      obtain ⟨p, hp, h1, h2⟩ := ih (zhalve w) (zhalve h) hmax
      obtain ⟨tl, htl⟩ := zDimsChain_cons (zhalve w) (zhalve h)
      rw [htl, List.getLast?_cons_cons, ← htl]
      exact ⟨p, hp, h1, h2⟩
    · rw [zDimsChain.eq_def, if_neg hcond]
      exact ⟨(w, h), by simp, by omega, by omega⟩

/-- Each collected size is the `zhalve` image of its predecessor. -/
lemma zDimsChain_adj_aux : ∀ m w h, max w h ≤ m →
    ∀ j, j + 1 < (zDimsChain w h).length →
      (zDimsChain w h).getD (j + 1) (0, 0) =
        (zhalve ((zDimsChain w h).getD j (0, 0)).1,
         zhalve ((zDimsChain w h).getD j (0, 0)).2) := by
  intro m
  induction m with
  | zero =>
    intro w h hm j hj
    have hw : w = 0 := by omega
    have hh : h = 0 := by omega
    subst hw
    subst hh
    simp [zDimsChain] at hj
  | succ m ih =>
    intro w h hm j hj
    by_cases hcond : 1 < w ∨ 1 < h
    · rw [zDimsChain.eq_def, if_pos hcond] at hj ⊢
      have hmax : max (zhalve w) (zhalve h) ≤ m := by
        simp only [zhalve]
        omega
      cases j with
      | zero =>
        simp only [List.getD_cons_succ, List.getD_cons_zero]
        exact zDimsChain_getD_zero _ _
      | succ k =>
        simp only [List.getD_cons_succ]
        simp only [List.length_cons] at hj
        exact ih (zhalve w) (zhalve h) hmax k (by omega)
    · rw [zDimsChain.eq_def, if_neg hcond] at hj
      simp at hj

lemma reverse_getD {α : Type} (l : List α) (i : Nat) (d : α) (h : i < l.length) :
    l.reverse.getD i d = l.getD (l.length - 1 - i) d := by
  rw [List.getD_eq_getElem?_getD, List.getD_eq_getElem?_getD,
    List.getElem?_reverse h]

lemma levels_pos (g : DeepZoomGenerator) : 0 < g.levels := by
  have hne := zDimsChain_ne_nil g.l0_dimensions.1 g.l0_dimensions.2
  simp only [DeepZoomGenerator.levels, DeepZoomGenerator.z_dimensions,
    List.length_reverse]
  exact List.length_pos.mpr hne

lemma z_dimensions_last (g : DeepZoomGenerator) :
    g.z_dimensions.getD (g.levels - 1) (0, 0) = g.l0_dimensions := by
  have hpos := levels_pos g
  have hlen : g.levels = (zDimsChain g.l0_dimensions.1 g.l0_dimensions.2).length := by
    simp [DeepZoomGenerator.levels, DeepZoomGenerator.z_dimensions]
  rw [DeepZoomGenerator.z_dimensions, reverse_getD _ _ _ (by omega)]
  have : (zDimsChain g.l0_dimensions.1 g.l0_dimensions.2).length - 1 -
      (g.levels - 1) = 0 := by omega
  rw [this, zDimsChain_getD_zero]

lemma z_dimensions_zero_le (g : DeepZoomGenerator) :
    (g.z_dimensions.getD 0 (0, 0)).1 ≤ 1 ∧ (g.z_dimensions.getD 0 (0, 0)).2 ≤ 1 := by
  have hpos := levels_pos g
  have hlen : g.levels = (zDimsChain g.l0_dimensions.1 g.l0_dimensions.2).length := by
    simp [DeepZoomGenerator.levels, DeepZoomGenerator.z_dimensions]
  obtain ⟨p, hp, h1, h2⟩ :=
    zDimsChain_getLast_aux (max g.l0_dimensions.1 g.l0_dimensions.2)
      g.l0_dimensions.1 g.l0_dimensions.2 le_rfl
  rw [DeepZoomGenerator.z_dimensions, reverse_getD _ _ _ (by omega)]
  rw [Nat.sub_zero, List.getD_eq_getElem?_getD, ← List.getLast?_eq_getElem?, hp]
  exact ⟨h1, h2⟩

lemma z_dimensions_adj (g : DeepZoomGenerator) (i : Nat) (h : i + 1 < g.levels) :
    g.z_dimensions.getD i (0, 0) =
      (zhalve (g.z_dimensions.getD (i + 1) (0, 0)).1,
       zhalve (g.z_dimensions.getD (i + 1) (0, 0)).2) := by
  have hlen : g.levels = (zDimsChain g.l0_dimensions.1 g.l0_dimensions.2).length := by
    simp [DeepZoomGenerator.levels, DeepZoomGenerator.z_dimensions]
  rw [DeepZoomGenerator.z_dimensions, reverse_getD _ _ _ (by omega),
    reverse_getD _ _ _ (by omega)]
  have hj : (zDimsChain g.l0_dimensions.1 g.l0_dimensions.2).length - 1 - i =
      ((zDimsChain g.l0_dimensions.1 g.l0_dimensions.2).length - 1 - (i + 1)) + 1 := by
    omega
  rw [hj]
  exact zDimsChain_adj_aux (max g.l0_dimensions.1 g.l0_dimensions.2)
    g.l0_dimensions.1 g.l0_dimensions.2 le_rfl _ (by omega)

/-- `t_dimensions[level]` is `tiles` applied to `z_dimensions[level]`
componentwise, for an in-range level. -/
lemma t_dimensions_getD (g : DeepZoomGenerator) (level : Nat)
    (h : level < g.levels) :
    g.t_dimensions.getD level (0, 0) =
      (g.tiles (g.z_dimensions.getD level (0, 0)).1,
       g.tiles (g.z_dimensions.getD level (0, 0)).2) := by
  have hlen : level < g.z_dimensions.length := h
  rw [DeepZoomGenerator.t_dimensions,
    List.getD_eq_getElem _ _ (by simpa using hlen),
    List.getD_eq_getElem _ _ hlen, List.getElem_map]

/-- A one-tile axis means the level dimension is positive and at most the
tile size. -/
lemma tiles_eq_one (g : DeepZoomGenerator) (z : Nat) (hts : 1 ≤ g.tile_size)
    (h : g.tiles z = 1) : 1 ≤ z ∧ z ≤ g.tile_size := by
  rw [DeepZoomGenerator.tiles] at h
  constructor
  · by_contra hz
    have hz0 : z = 0 := by omega
    subst hz0
    rw [Nat.div_eq_of_lt (by omega)] at h
    omega
  · by_contra hz
    have h2 : 2 ≤ (z + g.tile_size - 1) / g.tile_size := by
      rw [Nat.le_div_iff_mul_le (by omega)]
      omega
    omega

/-- A valid tile index leaves at least one level pixel of core content, so
the per-axis final tile size is at least 1. -/
lemma axis_z_size_pos (g : DeepZoomGenerator) (t : ℤ) (z_lim : Nat) (t_lim : ℤ)
    (hts : 1 ≤ g.tile_size) (ht0 : 0 ≤ t) (ht : t < (g.tiles z_lim : ℤ)) :
    1 ≤ g.axis_z_size t (z_lim : ℤ) t_lim := by
  have hov_tl : 0 ≤ g.overlap_tl t := by
    rw [DeepZoomGenerator.overlap_tl]
    split_ifs <;> omega
  have hov_br : 0 ≤ g.overlap_br t t_lim := by
    rw [DeepZoomGenerator.overlap_br]
    split_ifs <;> omega
  have hdiv : g.tiles z_lim * g.tile_size ≤ z_lim + g.tile_size - 1 := by
    rw [DeepZoomGenerator.tiles]
    exact Nat.div_mul_le_self _ _
  have hcast : ((g.tiles z_lim : ℤ)) * (g.tile_size : ℤ) ≤
      (z_lim : ℤ) + (g.tile_size : ℤ) - 1 := by
    have h1 := Int.ofNat_le.mpr hdiv
    rw [Nat.cast_sub (by omega)] at h1
    push_cast at h1
    exact h1
  have htle : t + 1 ≤ (g.tiles z_lim : ℤ) := by omega
  have hmul : (t + 1) * (g.tile_size : ℤ) ≤
      ((g.tiles z_lim : ℤ)) * (g.tile_size : ℤ) :=
    mul_le_mul_of_nonneg_right htle (by positivity)
  have hcore : (g.tile_size : ℤ) * t ≤ (z_lim : ℤ) - 1 := by
    have h5 : (t + 1) * (g.tile_size : ℤ) ≤ (z_lim : ℤ) + (g.tile_size : ℤ) - 1 :=
      le_trans hmul hcast
    rw [add_mul, one_mul] at h5
    have : t * (g.tile_size : ℤ) = (g.tile_size : ℤ) * t := mul_comm _ _
    linarith
  have hmin : 1 ≤ min (g.tile_size : ℤ) ((z_lim : ℤ) - (g.tile_size : ℤ) * t) := by
    apply le_min (by omega)
    linarith
  rw [DeepZoomGenerator.axis_z_size]
  linarith

/-- The per-axis read origin equals the floor of the tier-0 value of the
tier-space origin `L * (tileSize * t) - overlapBefore`, provided both
factors are nonnegative (Python `int()` truncates toward zero, which is
`floor` on nonnegative values). -/
lemma axis_l0_location_eq_floor (g : DeepZoomGenerator) (lv : Nat) (t : ℤ)
    (hD : 0 ≤ g.l0_l_downsamples.getD (g.layer_from_level lv) 0)
    (hl : 0 ≤ g.l_z_downsamples lv * ((g.tile_size : ℚ) * (t : ℚ)) -
      (if t ≠ 0 then (g.overlap : ℚ) else 0)) :
    g.axis_l0_location lv t =
      ⌊g.l0_l_downsamples.getD (g.layer_from_level lv) 0 *
        (g.l_z_downsamples lv * ((g.tile_size : ℚ) * (t : ℚ)) -
          (if t ≠ 0 then (g.overlap : ℚ) else 0))⌋ := by
  have hloc : g.axis_l_location lv t =
      g.l_z_downsamples lv * ((g.tile_size : ℚ) * (t : ℚ)) -
        (if t ≠ 0 then (g.overlap : ℚ) else 0) := by
    rw [DeepZoomGenerator.axis_l_location, DeepZoomGenerator.l_from_z,
      DeepZoomGenerator.z_from_t, DeepZoomGenerator.overlap_tl]
    split_ifs <;> push_cast <;> ring
  rw [DeepZoomGenerator.axis_l0_location, DeepZoomGenerator.l0_from_l, hloc,
    pyInt, if_neg (not_lt.mpr (mul_nonneg hD hl))]

/-! ### Claim theorems -/

/-- C1 counterexample: at the 600×600 single-layer example, tile
`(level 9, col 1, row 1)` has level-to-tier downsample 2 and tier
downsample 1; `_get_tile_info` returns read origin 511 on each axis, but
the claimed formula `floor(tierDownsample * levelToTierDownsample *
(tileSize*t - overlapBefore))` evaluates to 510. -/
theorem C1_counterexample :
    g600.get_tile_info 9 [1, 1] = .ok ⟨[511, 511], 0, [89, 89], [45, 45]⟩ ∧
    ⌊g600.l0_l_downsamples.getD (g600.layer_from_level 9) 0 *
        (g600.l_z_downsamples 9 *
          ((g600.tile_size : ℚ) * 1 - (g600.overlap : ℚ)))⌋ = 510 ∧
    (511 : ℤ) ≠ 510 := by
  refine ⟨g600_tile_9_11, ?_, by norm_num⟩
  norm_num [g600_lzd9, g600_layer9,
    show g600.l0_l_downsamples = [1] from rfl,
    show g600.tile_size = 256 from rfl,
    show g600.overlap = 1 from rfl]

/-- C1 (amended): for every valid tile address and each axis with index
`t`, the integer read origin returned by `_get_tile_info` equals
`floor(tierDownsample * (levelToTierDownsample * (tileSize*t) -
overlapBefore))`: the top/left overlap is subtracted from the origin
*after* it has been scaled to tier-pixel space, and the floor form of the
`int()` truncation needs the scaled origin to be nonnegative. -/
theorem C1_read_origin (g : DeepZoomGenerator) (level : Nat) (c r : ℤ)
    (hlevel : level < g.levels)
    (hc0 : 0 ≤ c) (hc : c < ((g.t_dimensions.getD level (0, 0)).1 : ℤ))
    (hr0 : 0 ≤ r) (hr : r < ((g.t_dimensions.getD level (0, 0)).2 : ℤ))
    (hD : 0 ≤ g.l0_l_downsamples.getD (g.layer_from_level level) 0)
    (hlc : 0 ≤ g.l_z_downsamples level * ((g.tile_size : ℚ) * (c : ℚ)) -
      (if c ≠ 0 then (g.overlap : ℚ) else 0))
    (hlr : 0 ≤ g.l_z_downsamples level * ((g.tile_size : ℚ) * (r : ℚ)) -
      (if r ≠ 0 then (g.overlap : ℚ) else 0)) :
    ∃ info, g.get_tile_info (level : ℤ) [c, r] = .ok info ∧
      info.l0_location =
        [⌊g.l0_l_downsamples.getD (g.layer_from_level level) 0 *
            (g.l_z_downsamples level * ((g.tile_size : ℚ) * (c : ℚ)) -
              (if c ≠ 0 then (g.overlap : ℚ) else 0))⌋,
         ⌊g.l0_l_downsamples.getD (g.layer_from_level level) 0 *
            (g.l_z_downsamples level * ((g.tile_size : ℚ) * (r : ℚ)) -
              (if r ≠ 0 then (g.overlap : ℚ) else 0))⌋] := by
  refine ⟨_, get_tile_info_ok_eval g level c r hlevel hc0 hc hr0 hr, ?_⟩
  dsimp only
  rw [axis_l0_location_eq_floor g level c hD hlc,
    axis_l0_location_eq_floor g level r hD hlr]

/-- Witness for the amended C1 at the 600×600 example, tile (9, 1, 1):
the origin is `floor(1 * (2 * 256 - 1)) = 511` on each axis. -/
theorem C1_read_origin_witness :
    ∃ info, g600.get_tile_info ((9 : ℕ) : ℤ) [1, 1] = .ok info ∧
      info.l0_location = [511, 511] := by
  obtain ⟨info, hok, hloc⟩ := C1_read_origin g600 9 1 1
    (by simp [g600_levels]) (by norm_num) (by simp [g600_t_dimensions])
    (by norm_num) (by simp [g600_t_dimensions])
    (by norm_num [g600_layer9, show g600.l0_l_downsamples = [1] from rfl])
    (by norm_num [g600_lzd9, show g600.tile_size = 256 from rfl,
      show g600.overlap = 1 from rfl])
    (by norm_num [g600_lzd9, show g600.tile_size = 256 from rfl,
      show g600.overlap = 1 from rfl])
  refine ⟨info, hok, ?_⟩
  rw [hloc]
  norm_num [g600_lzd9, g600_layer9,
    show g600.l0_l_downsamples = [1] from rfl,
    show g600.tile_size = 256 from rfl,
    show g600.overlap = 1 from rfl]

/-- C2: for every valid tile address and each axis, the final tile size
computed by `_get_tile_info` is
`min(tileSize, levelDimension - tileSize*t) + overlapBefore + overlapAfter`
with `overlapBefore = overlap` iff `t ≠ 0` and `overlapAfter = overlap`
iff `t ≠ tileGrid - 1`; in particular the 300×300 example tile (9, 1, 1)
has final size `(45, 45)`. -/
theorem C2_final_tile_size (g : DeepZoomGenerator) (level : Nat) (c r : ℤ)
    (hlevel : level < g.levels)
    (hc0 : 0 ≤ c) (hc : c < ((g.t_dimensions.getD level (0, 0)).1 : ℤ))
    (hr0 : 0 ≤ r) (hr : r < ((g.t_dimensions.getD level (0, 0)).2 : ℤ)) :
    (∃ info, g.get_tile_info (level : ℤ) [c, r] = .ok info ∧
      info.z_size =
        [min (g.tile_size : ℤ)
             (((g.z_dimensions.getD level (0, 0)).1 : ℤ) - (g.tile_size : ℤ) * c)
           + (if c ≠ 0 then (g.overlap : ℤ) else 0)
           + (if c ≠ ((g.t_dimensions.getD level (0, 0)).1 : ℤ) - 1
              then (g.overlap : ℤ) else 0),
         min (g.tile_size : ℤ)
             (((g.z_dimensions.getD level (0, 0)).2 : ℤ) - (g.tile_size : ℤ) * r)
           + (if r ≠ 0 then (g.overlap : ℤ) else 0)
           + (if r ≠ ((g.t_dimensions.getD level (0, 0)).2 : ℤ) - 1
              then (g.overlap : ℤ) else 0)]) ∧
    (∃ info, g300.get_tile_info 9 [1, 1] = .ok info ∧
      info.z_size = [45, 45]) := by
  refine ⟨⟨_, get_tile_info_ok_eval g level c r hlevel hc0 hc hr0 hr, ?_⟩,
    ⟨_, g300_tile_9_11, rfl⟩⟩
  dsimp only
  simp only [DeepZoomGenerator.axis_z_size, DeepZoomGenerator.overlap_tl,
    DeepZoomGenerator.overlap_br, mul_ite, mul_one, mul_zero]

/-- Witness for C2 at the 300×300 example, tile (9, 1, 1). -/
theorem C2_final_tile_size_witness :
    ∃ info, g300.get_tile_info 9 [1, 1] = .ok info ∧ info.z_size = [45, 45] :=
  (C2_final_tile_size g300 9 1 1
    (by simp [g300_levels]) (by norm_num) (by simp [g300_t_dimensions])
    (by norm_num) (by simp [g300_t_dimensions])).2

/-- C3: for every valid tile address and each axis, the read size is
`min(ceil(finalTileSize * levelToTierDownsample), tierDimension -
ceil(locationInTierSpace))`, where `locationInTierSpace` is the fractional
tier-space read origin; consequently the clipped read size plus the
ceiling of the tier-space origin never exceeds the tier dimension. -/
theorem C3_read_size (g : DeepZoomGenerator) (level : Nat) (c r : ℤ)
    (hlevel : level < g.levels)
    (hc0 : 0 ≤ c) (hc : c < ((g.t_dimensions.getD level (0, 0)).1 : ℤ))
    (hr0 : 0 ≤ r) (hr : r < ((g.t_dimensions.getD level (0, 0)).2 : ℤ)) :
    ∃ info, g.get_tile_info (level : ℤ) [c, r] = .ok info ∧
      info.l_size =
        [min ⌈((info.z_size.getD 0 0 : ℤ) : ℚ) * g.l_z_downsamples level⌉
           (((g.l_dimensions.getD (g.layer_from_level level) (0, 0)).1 : ℤ) -
             ⌈g.axis_l_location level c⌉),
         min ⌈((info.z_size.getD 1 0 : ℤ) : ℚ) * g.l_z_downsamples level⌉
           (((g.l_dimensions.getD (g.layer_from_level level) (0, 0)).2 : ℤ) -
             ⌈g.axis_l_location level r⌉)] ∧
      info.l_size.getD 0 0 + ⌈g.axis_l_location level c⌉ ≤
        ((g.l_dimensions.getD (g.layer_from_level level) (0, 0)).1 : ℤ) ∧
      info.l_size.getD 1 0 + ⌈g.axis_l_location level r⌉ ≤
        ((g.l_dimensions.getD (g.layer_from_level level) (0, 0)).2 : ℤ) := by
  refine ⟨_, get_tile_info_ok_eval g level c r hlevel hc0 hc hr0 hr, ?_, ?_, ?_⟩
  · dsimp only
    simp only [List.getD_cons_zero, List.getD_cons_succ]
    rw [DeepZoomGenerator.axis_l_size, DeepZoomGenerator.axis_l_size,
      DeepZoomGenerator.l_from_z, DeepZoomGenerator.l_from_z]
    rw [mul_comm (g.l_z_downsamples level), mul_comm (g.l_z_downsamples level)]
  · dsimp only
    simp only [List.getD_cons_zero, List.getD_cons_succ]
    rw [DeepZoomGenerator.axis_l_size]
    omega
  · dsimp only
    simp only [List.getD_cons_zero, List.getD_cons_succ]
    rw [DeepZoomGenerator.axis_l_size]
    omega

/-- Witness for C3 at the 300×300 example, tile (9, 1, 1): read size 45
per axis. -/
theorem C3_read_size_witness :
    ∃ info, g300.get_tile_info ((9 : ℕ) : ℤ) [1, 1] = .ok info ∧
      info.l_size = [45, 45] := by
  obtain ⟨info, hok, hsz, h1, h2⟩ := C3_read_size g300 9 1 1
    (by simp [g300_levels]) (by norm_num) (by simp [g300_t_dimensions])
    (by norm_num) (by simp [g300_t_dimensions])
  refine ⟨info, hok, ?_⟩
  have h9 : ((9 : ℕ) : ℤ) = (9 : ℤ) := by norm_num
  rw [h9, g300_tile_9_11] at hok
  simp only [Except.ok.injEq] at hok
  rw [← hok]

/-- C4: for every generator built on a source with full resolution
`(w, h)`, `w, h ≥ 1`: adjacent level dimensions satisfy
`levelDimensions[i] = max 1 (ceil(levelDimensions[i+1] / 2))` componentwise
(`(d+1)/2` is `ceil(d/2)` on naturals), the finest level equals the
full resolution, and level 0 has both components `≤ 1`. -/
theorem C4_level_hierarchy (g : DeepZoomGenerator) (w h : Nat)
    (hdim : g.l0_dimensions = (w, h)) (hw : 1 ≤ w) (hh : 1 ≤ h) :
    (∀ i, i + 1 < g.levels →
      g.z_dimensions.getD i (0, 0) =
        (max 1 (((g.z_dimensions.getD (i + 1) (0, 0)).1 + 1) / 2),
         max 1 (((g.z_dimensions.getD (i + 1) (0, 0)).2 + 1) / 2))) ∧
    g.z_dimensions.getD (g.levels - 1) (0, 0) = (w, h) ∧
    (g.z_dimensions.getD 0 (0, 0)).1 ≤ 1 ∧ (g.z_dimensions.getD 0 (0, 0)).2 ≤ 1 := by
  refine ⟨?_, ?_, z_dimensions_zero_le g⟩
  · intro i hi
    simpa [zhalve] using z_dimensions_adj g i hi
  · rw [z_dimensions_last, hdim]

/-- Witness for C4 at the 300×300 example. -/
theorem C4_level_hierarchy_witness :
    g300.l0_dimensions = (300, 300) ∧
    ((∀ i, i + 1 < g300.levels →
      g300.z_dimensions.getD i (0, 0) =
        (max 1 (((g300.z_dimensions.getD (i + 1) (0, 0)).1 + 1) / 2),
         max 1 (((g300.z_dimensions.getD (i + 1) (0, 0)).2 + 1) / 2))) ∧
    g300.z_dimensions.getD (g300.levels - 1) (0, 0) = (300, 300) ∧
    (g300.z_dimensions.getD 0 (0, 0)).1 ≤ 1 ∧
    (g300.z_dimensions.getD 0 (0, 0)).2 ≤ 1) :=
  ⟨rfl, C4_level_hierarchy g300 300 300 rfl (by norm_num) (by norm_num)⟩

/-- C5: `_get_tile_info` fails with `Invalid level` iff the level is
outside `[0, levelCount)`; for an in-range level it fails with
`Invalid address` iff the column or row is negative or at least the grid
limit; on any failure `get_tile` performs no region read; and the only
outcomes are success or one of these two errors. -/
theorem C5_validation (g : DeepZoomGenerator) (level c r : ℤ) :
    (g.get_tile_info level [c, r] = .error .invalidLevel ↔
      level < 0 ∨ (g.levels : ℤ) ≤ level) ∧
    (0 ≤ level → level < (g.levels : ℤ) →
      (g.get_tile_info level [c, r] = .error .invalidAddress ↔
        (c < 0 ∨ ((g.t_dimensions.getD level.toNat (0, 0)).1 : ℤ) ≤ c ∨
         r < 0 ∨ ((g.t_dimensions.getD level.toNat (0, 0)).2 : ℤ) ≤ r))) ∧
    (∀ e, g.get_tile_info level [c, r] = .error e →
      g.get_tile_reads level [c, r] = []) ∧
    ((∃ info, g.get_tile_info level [c, r] = .ok info) ∨
     g.get_tile_info level [c, r] = .error .invalidLevel ∨
     g.get_tile_info level [c, r] = .error .invalidAddress) := by
  refine ⟨get_tile_info_invalidLevel_iff g level [c, r], ?_, ?_, ?_⟩
  · intro h0 h1
    rw [get_tile_info_invalidAddress_iff]
    simp only [pairList, List.zip_cons_cons, List.zip_nil_left,
      List.any_cons, List.any_nil, Bool.or_false, Bool.or_eq_true,
      decide_eq_true_eq]
    constructor
    · rintro ⟨-, -, hh⟩
      tauto
    · intro hh
      exact ⟨h0, h1, by tauto⟩
  · intro e he
    simp only [DeepZoomGenerator.get_tile_reads, he]
  · cases hres : g.get_tile_info level [c, r] with
    | ok info => exact .inl ⟨info, rfl⟩
    | error e =>
      cases e with
      | invalidLevel => exact .inr (.inl rfl)
      | invalidAddress => exact .inr (.inr rfl)

/-- Witness for C5 at the 300×300 example: a negative level and
`level = levelCount` give `Invalid level`, an out-of-grid column gives
`Invalid address`, and no read happens on failure. -/
theorem C5_validation_witness :
    g300.get_tile_info (-1) [0, 0] = .error .invalidLevel ∧
    g300.get_tile_info 10 [0, 0] = .error .invalidLevel ∧
    g300.get_tile_info 9 [2, 0] = .error .invalidAddress ∧
    g300.get_tile_reads (-1) [0, 0] = [] := by
  refine ⟨?_, ?_, ?_, ?_⟩
  · exact (C5_validation g300 (-1) 0 0).1.mpr (by norm_num)
  · exact (C5_validation g300 10 0 0).1.mpr (by norm_num [g300_levels])
  · exact ((C5_validation g300 9 2 0).2.1 (by norm_num)
      (by norm_num [g300_levels])).mpr
      (by norm_num [g300_t_dimensions, show (9 : ℤ).toNat = 9 from rfl])
  · exact (C5_validation g300 (-1) 0 0).2.2.1 .invalidLevel
      ((C5_validation g300 (-1) 0 0).1.mpr (by norm_num))

/-- C6: for every level, the plan downsample relative to full resolution
is `2^(levelCount - 1 - level)`, the preferred tier is
`bestTierForDownsample` of that value, and the level-to-tier downsample is
that value divided by the downsample of the preferred tier itself. -/
theorem C6_downsample_plan (g : DeepZoomGenerator) (level : Nat) :
    g.l0_z_downsamples level = 2 ^ (g.levels - 1 - level) ∧
    g.layer_from_level level =
      g.osr.best_layer ((2 : ℚ) ^ (g.levels - 1 - level)) ∧
    g.l_z_downsamples level =
      (2 : ℚ) ^ (g.levels - 1 - level) /
        g.l0_l_downsamples.getD (g.layer_from_level level) 0 := by
  have hsub : g.levels - level - 1 = g.levels - 1 - level := by omega
  refine ⟨?_, ?_, ?_⟩
  · rw [DeepZoomGenerator.l0_z_downsamples, hsub]
  · rw [DeepZoomGenerator.layer_from_level, DeepZoomGenerator.l0_z_downsamples,
      hsub]
  · rw [DeepZoomGenerator.l_z_downsamples, DeepZoomGenerator.l0_z_downsamples,
      hsub]

/-- C7: `get_dzi` produces a root element `Image` carrying `TileSize`,
`Overlap`, the caller-supplied `Format` token and the fixed namespace,
with exactly one child `Size` whose `Width`/`Height` are the
full-resolution dimensions; the 300×300 example with format `jpeg` has
the quoted attribute values.  (Serializing the element tree to UTF-8 XML
text is done by the external `ElementTree` library, outside the core.) -/
theorem C7_descriptor (g : DeepZoomGenerator) (format : String) :
    (g.get_dzi format).tag = "Image" ∧
    (g.get_dzi format).attrs =
      [("TileSize", toString g.tile_size), ("Overlap", toString g.overlap),
       ("Format", format),
       ("xmlns", "http://schemas.microsoft.com/deepzoom/2008")] ∧
    (g.get_dzi format).children =
      [⟨"Size", [("Width", toString g.l0_dimensions.1),
                 ("Height", toString g.l0_dimensions.2)], []⟩] ∧
    (g300.get_dzi "jpeg").attrs =
      [("TileSize", "256"), ("Overlap", "1"), ("Format", "jpeg"),
       ("xmlns", "http://schemas.microsoft.com/deepzoom/2008")] ∧
    (g300.get_dzi "jpeg").children =
      [⟨"Size", [("Width", "300"), ("Height", "300")], []⟩] :=
  ⟨rfl, rfl, rfl, rfl, rfl⟩

/-- C8: at a level whose tile grid is `(1, 1)`, tile `(0, 0)` gets no
overlap on any edge and its final size is exactly the level dimensions. -/
theorem C8_one_tile_level (g : DeepZoomGenerator) (level : Nat)
    (hts : 1 ≤ g.tile_size) (hlevel : level < g.levels)
    (hgrid : g.t_dimensions.getD level (0, 0) = (1, 1)) :
    ∃ info, g.get_tile_info (level : ℤ) [0, 0] = .ok info ∧
      info.z_size = [((g.z_dimensions.getD level (0, 0)).1 : ℤ),
                     ((g.z_dimensions.getD level (0, 0)).2 : ℤ)] := by
  have hc : (0 : ℤ) < ((g.t_dimensions.getD level (0, 0)).1 : ℤ) := by
    rw [hgrid]
    norm_num
  have hr : (0 : ℤ) < ((g.t_dimensions.getD level (0, 0)).2 : ℤ) := by
    rw [hgrid]
    norm_num
  refine ⟨_, get_tile_info_ok_eval g level 0 0 hlevel le_rfl hc le_rfl hr, ?_⟩
  have ht := t_dimensions_getD g level hlevel
  rw [hgrid] at ht
  have h1 : g.tiles (g.z_dimensions.getD level (0, 0)).1 = 1 :=
    (congrArg Prod.fst ht).symm
  have h2 : g.tiles (g.z_dimensions.getD level (0, 0)).2 = 1 :=
    (congrArg Prod.snd ht).symm
  obtain ⟨hw1, hw2⟩ := tiles_eq_one g _ hts h1
  obtain ⟨hh1, hh2⟩ := tiles_eq_one g _ hts h2
  dsimp only
  rw [hgrid]
  set zw := (g.z_dimensions.getD level (0, 0)).1 with hzw
  set zh := (g.z_dimensions.getD level (0, 0)).2 with hzh
  simp only [DeepZoomGenerator.axis_z_size, DeepZoomGenerator.overlap_tl,
    DeepZoomGenerator.overlap_br, List.cons.injEq, and_true]
  norm_num
  constructor <;> omega

/-- Witness for C8 at the 300×300 example, level 8 (dimensions 150×150,
one tile). -/
theorem C8_one_tile_level_witness :
    ∃ info, g300.get_tile_info ((8 : ℕ) : ℤ) [0, 0] = .ok info ∧
      info.z_size = [((g300.z_dimensions.getD 8 (0, 0)).1 : ℤ),
                     ((g300.z_dimensions.getD 8 (0, 0)).2 : ℤ)] :=
  C8_one_tile_level g300 8
    (by norm_num [show g300.tile_size = 256 from rfl])
    (by simp [g300_levels]) (by simp [g300_t_dimensions])

/-- C9: for every valid tile address (with `tileSize ≥ 1`; `overlap ≥ 0`
holds by construction since `overlap : ℕ`), both components of the final
tile size are at least 1, so the compositing step is never asked for an
empty tile. -/
theorem C9_tile_size_positive (g : DeepZoomGenerator) (level : Nat) (c r : ℤ)
    (hts : 1 ≤ g.tile_size) (hlevel : level < g.levels)
    (hc0 : 0 ≤ c) (hc : c < ((g.t_dimensions.getD level (0, 0)).1 : ℤ))
    (hr0 : 0 ≤ r) (hr : r < ((g.t_dimensions.getD level (0, 0)).2 : ℤ)) :
    ∃ info, g.get_tile_info (level : ℤ) [c, r] = .ok info ∧
      ∀ z ∈ info.z_size, 1 ≤ z := by
  refine ⟨_, get_tile_info_ok_eval g level c r hlevel hc0 hc hr0 hr, ?_⟩
  have ht := t_dimensions_getD g level hlevel
  have hcx : c < (g.tiles (g.z_dimensions.getD level (0, 0)).1 : ℤ) := by
    rw [ht] at hc
    exact_mod_cast hc
  have hry : r < (g.tiles (g.z_dimensions.getD level (0, 0)).2 : ℤ) := by
    rw [ht] at hr
    exact_mod_cast hr
  intro z hz
  dsimp only at hz
  simp only [List.mem_cons, List.not_mem_nil, or_false] at hz
  rcases hz with hz | hz
  · exact hz ▸ axis_z_size_pos g c _ _ hts hc0 hcx
  · exact hz ▸ axis_z_size_pos g r _ _ hts hr0 hry

/-- Witness for C9 at the 300×300 example, tile (9, 1, 1). -/
theorem C9_tile_size_positive_witness :
    ∃ info, g300.get_tile_info ((9 : ℕ) : ℤ) [1, 1] = .ok info ∧
      ∀ z ∈ info.z_size, 1 ≤ z :=
  C9_tile_size_positive g300 9 1 1
    (by norm_num [show g300.tile_size = 256 from rfl])
    (by simp [g300_levels]) (by norm_num) (by simp [g300_t_dimensions])
    (by norm_num) (by simp [g300_t_dimensions])

/-- C10: address validation zips the address against the two grid limits,
so only the first two coordinates are ever checked: for any in-range
level, the empty address passes validation (and every downstream
comprehension yields an empty list), and appending arbitrary extra
coordinates after the second never changes whether `Invalid address` is
raised. -/
theorem C10_zip_validation (g : DeepZoomGenerator) (level : ℤ)
    (h0 : 0 ≤ level) (h1 : level < (g.levels : ℤ)) :
    g.get_tile_info level [] =
      .ok ⟨[], g.layer_from_level level.toNat, [], []⟩ ∧
    (∀ c r x rest,
      g.get_tile_info level (c :: r :: x :: rest) = .error .invalidAddress ↔
        g.get_tile_info level [c, r] = .error .invalidAddress) := by
  constructor
  · unfold DeepZoomGenerator.get_tile_info
    rw [if_neg (by omega)]
    dsimp only
    rw [if_neg (by simp)]
    simp
  · intro c r x rest
    rw [get_tile_info_invalidAddress_iff, get_tile_info_invalidAddress_iff]
    simp only [pairList, List.zip_cons_cons, List.zip_nil_left,
      List.zip_nil_right]

/-- Witness for C10 at the 300×300 example, level 0: the empty address is
accepted, and a wildly out-of-range third coordinate changes nothing. -/
theorem C10_zip_validation_witness :
    g300.get_tile_info 0 [] = .ok ⟨[], g300.layer_from_level 0, [], []⟩ ∧
    (g300.get_tile_info 0 [0, 0, 999] = .error .invalidAddress ↔
      g300.get_tile_info 0 [0, 0] = .error .invalidAddress) := by
  have h := C10_zip_validation g300 0 (by norm_num) (by norm_num [g300_levels])
  exact ⟨by simpa using h.1, h.2 0 0 999 []⟩
